import Mathlib

/-!
Shallow embedding of the simpleupdater repository (package `simpleupdater`,
files `graceful.go` and `sys_posix.go` plus the top-level run/validate file),
together with theorems settling the specification claims about it.

Concurrency in `graceful.go` is modelled two ways, both read off the source:
a per-operation state machine over listener/connection records (for the
accept/close/release contracts), and a discrete-time drain timeline (for the
race between the `sync.WaitGroup` wait and the `time.After(timeout)` timer
inside `release`).  Machine integers (`time.Duration`) are `Int` nanoseconds.
-/

namespace Simpleupdater

/-- Dynamic type of the `net.Listener` value wrapped by a
`simpleupdaterListener`.  `graceful.go` type-asserts it to
`*net.TCPListener` (lines 30 and 82); `fake` stands for any other
implementation of the `net.Listener` interface, such as an in-memory
fake listener.  A `tcp` listener carries its file descriptor. -/
inductive NetListener where
  | tcp (fd : Nat)
  | fake
deriving DecidableEq

/-- Outcome of a Go expression that may panic (here: a failed
single-value type assertion `l.Listener.(*net.TCPListener)`). -/
inductive PanicOr (α : Type) where
  | panicked : PanicOr α
  | ok : α → PanicOr α
deriving DecidableEq

/-- State of a `simpleupdaterConn` (graceful.go lines 88-92) together with
the observable effects of its `Close` method: whether the wrapped
`net.Conn` has been closed, how many times the per-connection closed
event was sent on the `closed` channel, and the keep-alive settings
applied by `Accept`.  The period is in nanoseconds (`3 * time.Minute`). -/
structure GConn where
  underlyingClosed : Bool
  closedEvents : Nat
  keepAlive : Bool
  keepAlivePeriodNs : Nat
deriving DecidableEq

/-- State of a `simpleupdaterListener` (graceful.go lines 22-27):
the wrapped `net.Listener`, the `sync.WaitGroup` counter of open
connections, the error captured from `l.Listener.Close()` in `release`,
and whether the underlying listener has been closed. -/
structure GListener where
  underlying : NetListener
  waitCount : Nat
  closeError : Option String
  underlyingClosed : Bool
deriving DecidableEq

/-- The Go type assertion `l.Listener.(*net.TCPListener)`: yields the
TCP listener (its descriptor) or panics when the dynamic type is not
`*net.TCPListener`. -/
def assertTCPListener : NetListener → PanicOr Nat
  | .tcp fd => .ok fd
  | .fake => .panicked

/-- `simpleupdaterListener.Accept` (graceful.go lines 29-52).
`raw` is the result of `AcceptTCP` on the underlying TCP listener:
either an error or a fresh connection.  On error the error is returned
with a nil connection and the listener state is unchanged; on success
keep-alive is enabled with a 3-minute period, the connection is wrapped,
a watcher goroutine is started, and `l.wg.Add(1)` enrols it in drain
accounting.  The type assertion panics when the wrapped listener is not
a `*net.TCPListener`. -/
def listenerAccept (l : GListener) (raw : Except String Unit) :
    PanicOr (GListener × Except String GConn) :=
  match assertTCPListener l.underlying with
  | .panicked => .panicked
  | .ok _ =>
    match raw with
    | .error e => .ok (l, .error e)
    | .ok _ =>
      .ok ({ l with waitCount := l.waitCount + 1 },
           .ok { underlyingClosed := false, closedEvents := 0,
                 keepAlive := true, keepAlivePeriodNs := 180000000000 })

/-- `simpleupdaterConn.Close` (graceful.go lines 94-101): close the
wrapped `net.Conn`; only when that returns nil, decrement the listener's
wait-group and send the per-connection closed event.  Closing an
already-closed TCP connection returns `net.ErrClosed`, so the guard
`err == nil` fails on a second call. -/
def connClose (l : GListener) (c : GConn) : GListener × GConn × Option String :=
  if c.underlyingClosed then
    (l, c, some "use of closed network connection")
  else
    ({ l with waitCount := l.waitCount - 1 },
     { c with underlyingClosed := true, closedEvents := c.closedEvents + 1 },
     none)

/-- The state effect of `simpleupdaterListener.release` (graceful.go
lines 55-57): the underlying listener is closed and the resulting error
is captured in `closeError`.  The two timer goroutines it spawns are
modelled by the drain timeline below. -/
def listenerRelease (l : GListener) (stopErr : Option String) : GListener :=
  { l with underlyingClosed := true, closeError := stopErr }

/-- `simpleupdaterListener.Close` (graceful.go lines 75-78): `l.wg.Wait()`
then return `l.closeError`.  The blocking wait is modelled as a partial
result: `none` while the wait-group counter is non-zero (the call has
not returned), `some closeError` once it reaches zero. -/
def listenerCloseBlocking (l : GListener) : Option (Option String) :=
  if l.waitCount = 0 then some l.closeError else none

/-- `simpleupdaterListener.File` (graceful.go lines 80-85): type-assert
to `*net.TCPListener` and return a dup of its descriptor (the error from
`tl.File()` is discarded).  Panics on a non-TCP listener. -/
def listenerFile (l : GListener) : PanicOr Nat :=
  match assertTCPListener l.underlying with
  | .panicked => .panicked
  | .ok fd => .ok fd

/-- Fold a sequence of connection `Close` calls over a listener,
keeping only the listener component of each call's result. -/
def closeMany : GListener → List GConn → GListener
  | l, [] => l
  | l, c :: cs => closeMany (connClose l c).1 cs

/-! ### Drain timeline

`release(timeout)` (graceful.go lines 55-72) races a goroutine that
fires when `l.wg.Wait()` returns against `time.After(timeout)`.  Time is
discrete; a drain plan records how many connections are open when
`release` is called and at which tick each one's handler calls `Close`. -/

/-- A drain run of one listener: `n` connections are open when
`release(timeout)` is invoked; `closeTime i` is the tick at which
connection `i` is closed by its handler (`none` if never); `closeErr`
is the error captured from closing the underlying listener. -/
structure DrainPlan where
  n : Nat
  closeTime : Nat → Option Nat
  timeout : Nat
  closeErr : Option String

/-- Connection `i` has been closed by its own handler at or before tick `t`. -/
def manuallyClosedBy (p : DrainPlan) (i t : Nat) : Bool :=
  match p.closeTime i with
  | some ti => ti ≤ t
  | none => false

/-- Connection `i` is closed by its own handler strictly before the
`time.After(timeout)` tick. -/
def closedBeforeDeadline (p : DrainPlan) (i : Nat) : Bool :=
  match p.closeTime i with
  | some ti => ti < p.timeout
  | none => false

/-- Connection `i` is still open when the deadline tick arrives. -/
def openAtDeadline (p : DrainPlan) (i : Nat) : Bool :=
  ! closedBeforeDeadline p i

/-- The wait-group counter at the end of tick `t`: `n` enrolments minus
the manual closes that have happened (each successful `Close` calls
`wg.Done()` exactly once). -/
def wgAt (p : DrainPlan) (t : Nat) : Nat :=
  p.n - ((List.range p.n).filter (fun i => manuallyClosedBy p i t)).length

/-- The first tick strictly before the deadline at which the counter
reaches zero, i.e. when the `waited` goroutine (`l.wg.Wait()`) fires and
wins the `select` against `time.After(timeout)`; `none` if the counter
never reaches zero before the deadline. -/
def drainTick (p : DrainPlan) : Option Nat :=
  (List.range p.timeout).find? (fun t => wgAt p t == 0)

/-- The `time.After(timeout)` case of the `select` wins: the counter did
not reach zero before the deadline, so `close(l.closeByForce)` runs. -/
def forceFires (p : DrainPlan) : Bool :=
  (drainTick p).isNone

/-- The connections force-closed by the drain run: when the deadline
fires first, `closeByForce` is closed and every still-open connection's
watcher goroutine (graceful.go lines 41-49) closes it; when the
connections drained in time, nothing is force-closed. -/
def forcedConns (p : DrainPlan) : List Nat :=
  if forceFires p then (List.range p.n).filter (fun i => openAtDeadline p i) else []

/-- Number of `wg.Done()` calls made by manual closes.  When the force
deadline fired, only closes strictly before it decrement (a later manual
`Close` of a force-closed connection gets `net.ErrClosed` and skips the
decrement); otherwise every manual close decrements. -/
def manualDecrements (p : DrainPlan) : Nat :=
  if forceFires p then
    ((List.range p.n).filter (fun i => closedBeforeDeadline p i)).length
  else
    ((List.range p.n).filter (fun i => (p.closeTime i).isSome)).length

/-- The wait-group counter after the drain run has finished: enrolments
minus manual decrements minus the decrements done by the watchers of
force-closed connections. -/
def finalWg (p : DrainPlan) : Nat :=
  p.n - (manualDecrements p + (forcedConns p).length)

/-- The blocking `Close()` at the end of the drain run: returns the
captured `closeError` once the counter reaches zero, else still blocks. -/
def drainBlockingClose (p : DrainPlan) : Option (Option String) :=
  if finalWg p = 0 then some p.closeErr else none

/-! ### Configuration and validation (`Config`, `validate`) -/

/-- POSIX signals used by the package (`sys_posix.go` lines 20-22). -/
inductive Signal where
  | usr1
  | usr2
  | term
deriving DecidableEq

/-- `simpleupdater.Config`.  `program` is `none` when the Go field
`Program` is nil; durations are `time.Duration` nanoseconds. -/
structure Config where
  required : Bool
  program : Option Unit
  address : String
  addresses : List String
  restartSignal : Option Signal
  terminateTimeout : Int
  minFetchInterval : Int
  debug : Bool
  noWarn : Bool
  noRestart : Bool
  noRestartAfterFetch : Bool
deriving DecidableEq

/-- The address-normalisation step of `validate`: if `Address` is set,
`Addresses` becomes the singleton; else if `Addresses` is set, `Address`
becomes its first element; else neither is touched. -/
def fillAddresses (c : Config) : Config :=
  if c.address ≠ "" then { c with addresses := [c.address] }
  else
    match c.addresses with
    | a :: _ => { c with address := a }
    | [] => c

/-- Default restart signal: `SIGUSR2` when unset. -/
def fillRestartSignal (c : Config) : Config :=
  if c.restartSignal.isNone then { c with restartSignal := some .usr2 } else c

/-- Default terminate timeout: 30 seconds when non-positive. -/
def fillTerminateTimeout (c : Config) : Config :=
  if c.terminateTimeout ≤ 0 then { c with terminateTimeout := 30 * 1000000000 } else c

/-- Default minimum fetch interval: 1 second when non-positive. -/
def fillMinFetchInterval (c : Config) : Config :=
  if c.minFetchInterval ≤ 0 then { c with minFetchInterval := 1000000000 } else c

/-- The default-filling tail of `validate`. -/
def fillDefaults (c : Config) : Config :=
  fillMinFetchInterval (fillTerminateTimeout (fillRestartSignal c))

/-- `validate` (the run file, lines 131-154): error when `Program` is
nil or both `Address` and `Addresses` are set; otherwise normalise the
address forms and fill defaults. -/
def validate (c : Config) : Except String Config :=
  if c.program.isNone then
    .error "simpleupdater.Config.Program required"
  else if c.address ≠ "" ∧ c.addresses ≠ [] then
    .error "simpleupdater.Config.Address and Addresses cant both be set"
  else
    .ok (fillDefaults (fillAddresses c))

/-- Whether an `Except` result is an error. -/
def isErr {ε α : Type} : Except ε α → Bool
  | .error _ => true
  | .ok _ => false

/-- The address list a configuration carries after successful
validation, `none` when validation fails. -/
def validatedAddresses (c : Config) : Option (List String) :=
  match validate c with
  | .ok c4 => some c4.addresses
  | .error _ => none

/-! ### Run path: sanity check, error handling (`sanityCheck`, `runErr`, `Run`) -/

/-- The process environment variables the run path reads. -/
structure Env where
  binCheck : String
  binCheckLegacy : String
  isSlave : String
deriving DecidableEq

/-- `sanityCheck` (the run file, lines 180-192): when the
`simpleupdater_BIN_CHECK` variable (or its legacy alias) is non-empty,
print exactly its value to standard output and report that a check was
performed.  Returns the token printed, `none` when no check ran. -/
def sanityCheckModel (e : Env) : Option String :=
  if e.binCheck ≠ "" then some e.binCheck
  else if e.binCheckLegacy ≠ "" then some e.binCheckLegacy
  else none

/-- How far `runErr` (the run file, lines 212-230) gets. -/
inductive RunErrOutcome where
  | errorReturn (msg : String)
  | sanityReturn (printed : String)
  | enteredSlave
  | enteredMaster
deriving DecidableEq

/-- `runErr`: unsupported-OS check, then `validate`, then the sanity
check (returning nil after printing the token), then dispatch to slave
or master mode.  The master/slave bodies are outside the modelled files;
their outcome is left abstract in `enteredMaster` / `enteredSlave`. -/
def runErrModel (supported : Bool) (c : Config) (e : Env) : RunErrOutcome :=
  if !supported then .errorReturn "os not supported"
  else
    match validate c with
    | .error msg => .errorReturn msg
    | .ok _ =>
      match sanityCheckModel e with
      | some tok => .sanityReturn tok
      | none => if e.isSlave = "1" then .enteredSlave else .enteredMaster

/-- The runtime state handed to the user program: enabled, or the
disabled fallback state. -/
inductive StateKind where
  | enabled
  | disabled
deriving DecidableEq

/-- Observable effect of `Run` (the run file, lines 165-177).
`fallbackRun warned st` records whether the warning was logged and the
state the user program was invoked with. -/
inductive RunEffect where
  | fatalExit (msg : String)
  | fallbackRun (warned : Bool) (st : StateKind)
  | exitZero
  | enteredMasterLoop
  | enteredSlaveLoop
deriving DecidableEq

/-- The error branch of `Run`: on a non-nil error from `runErr`, exit
fatally when `Required`, else log a warning (only when `Debug` or
warnings are not suppressed) and run the program in-process with the
disabled state; on nil error, `os.Exit(0)`. -/
def runHandleErr (required debug noWarn : Bool) (err : Option String) : RunEffect :=
  match err with
  | some msg =>
    if required then .fatalExit msg
    else .fallbackRun (debug || !noWarn) .disabled
  | none => .exitZero

/-- `Run` composed with `runErr`: the effect together with what was
written to standard output (the sanity token, when that path ran).
What happens after entering the master or slave loop is outside the
modelled files and left abstract. -/
def runModel (supported : Bool) (c : Config) (e : Env) : RunEffect × String :=
  match runErrModel supported c e with
  | .errorReturn msg => (runHandleErr c.required c.debug c.noWarn (some msg), "")
  | .sanityReturn tok => (.exitZero, tok)
  | .enteredMaster => (.enteredMasterLoop, "")
  | .enteredSlave => (.enteredSlaveLoop, "")

/-! ### Binary install move (`sys_posix.go` `move`) -/

/-- The externally visible steps `move` can take. -/
inductive MoveStep where
  | renameAttempt
  | mvRun
  | syncRun
deriving DecidableEq

/-- `move` (sys_posix.go lines 25-52), parametrised by the outcomes of
the three fallible operations it performs: `os.Rename`, the shelled-out
`mv` fallback, and the `sync` command.  Returns the steps executed in
order and the resulting error. -/
def move (renameErr mvErr syncErr : Option String) : List MoveStep × Option String :=
  match renameErr with
  | none => ([.renameAttempt], none)
  | some _ =>
    match mvErr with
    | some e => ([.renameAttempt, .mvRun], some e)
    | none =>
      match syncErr with
      | some e => ([.renameAttempt, .mvRun, .syncRun], some e)
      | none => ([.renameAttempt, .mvRun, .syncRun], none)

/-! ### Programmatic restart (`Restart`, `currentProcess`) -/

/-- Outcome of `Restart`: guarded no-op, delegated to the current
process's `triggerRestart`, or the panic a method call on a nil Go
interface value would raise. -/
inductive RestartOutcome where
  | noop
  | delegated
  | nilMethodPanic
deriving DecidableEq

/-- Calling `triggerRestart` on the `currentProcess` interface value:
panics when the interface is nil. -/
def triggerRestartCall : Option Unit → RestartOutcome
  | none => .nilMethodPanic
  | some _ => .delegated

/-- `Restart` (the run file, lines 234-238): call `triggerRestart` only
when `currentProcess` is non-nil.  Returns the (unchanged) selector and
the outcome. -/
def restartModel (cp : Option Unit) : Option Unit × RestartOutcome :=
  if cp.isSome then (cp, triggerRestartCall cp) else (cp, .noop)

/-! ### Concrete instances used by witnesses and counterexamples -/

/-- A listener wrapping a TCP listener with one open connection. -/
def tcpL : GListener :=
  { underlying := .tcp 7, waitCount := 1, closeError := none, underlyingClosed := false }

/-- A listener wrapping an in-memory fake (non-TCP) listener. -/
def fakeL : GListener :=
  { underlying := .fake, waitCount := 0, closeError := none, underlyingClosed := false }

/-- A freshly accepted, not yet closed connection. -/
def freshConn : GConn :=
  { underlyingClosed := false, closedEvents := 0, keepAlive := true,
    keepAlivePeriodNs := 180000000000 }

/-- A drain run with two connections both closed well before the deadline. -/
def drainPlanEx : DrainPlan :=
  { n := 2, closeTime := fun i => if i = 0 then some 1 else some 3,
    timeout := 10, closeErr := none }

/-- A configuration with a program but neither address form set. -/
def cfgNoAddr : Config :=
  { required := false, program := some (), address := "", addresses := [],
    restartSignal := none, terminateTimeout := 0, minFetchInterval := 0,
    debug := false, noWarn := false, noRestart := false, noRestartAfterFetch := false }

/-- A required-mode configuration whose `Program` is nil. -/
def cfgNoProgram : Config :=
  { cfgNoAddr with program := none, required := true }

/-- An environment with the sanity-check variable set. -/
def envTok : Env :=
  { binCheck := "deadbeef", binCheckLegacy := "", isSlave := "" }

/-! ## Theorems -/

/-- A connection close never touches the listener's captured close error. -/
theorem connClose_closeError (l : GListener) (c : GConn) :
    (connClose l c).1.closeError = l.closeError := by
  unfold connClose
  split <;> rfl

/-- Folding connection closes over a listener preserves the captured
close error. -/
theorem closeMany_closeError (cs : List GConn) :
    ∀ l : GListener, (closeMany l cs).closeError = l.closeError := by
  induction cs with
  | nil => intro l; rfl
  | cons c cs ih =>
    intro l
    rw [closeMany, ih, connClose_closeError]

/-- C2: after `release` captured the error from closing the underlying
listener socket, the argument-less `Close()` blocks while the
open-connection count is non-zero and, once the count reaches zero
through connection closes, returns exactly that captured error. -/
theorem close_blocks_until_drained (l : GListener) (stopErr : Option String)
    (cs : List GConn) :
    ((closeMany (listenerRelease l stopErr) cs).waitCount ≠ 0 →
        listenerCloseBlocking (closeMany (listenerRelease l stopErr) cs) = none)
    ∧ ((closeMany (listenerRelease l stopErr) cs).waitCount = 0 →
        listenerCloseBlocking (closeMany (listenerRelease l stopErr) cs) = some stopErr) := by
  constructor
  · intro h
    simp [listenerCloseBlocking, h]
  · intro h
    have he : (closeMany (listenerRelease l stopErr) cs).closeError = stopErr := by
      rw [closeMany_closeError]
      rfl
    simp [listenerCloseBlocking, h, he]

theorem close_blocks_until_drained_w :
    listenerCloseBlocking (closeMany (listenerRelease tcpL none) [freshConn]) = some none :=
  (close_blocks_until_drained tcpL none [freshConn]).2 rfl

/-- Normalising the address forms leaves every other field unchanged. -/
theorem fillAddresses_fields (c : Config) :
    (fillAddresses c).restartSignal = c.restartSignal
    ∧ (fillAddresses c).terminateTimeout = c.terminateTimeout
    ∧ (fillAddresses c).minFetchInterval = c.minFetchInterval := by
  unfold fillAddresses
  split
  · exact ⟨rfl, rfl, rfl⟩
  · split <;> exact ⟨rfl, rfl, rfl⟩

/-- Filling the restart-signal default leaves the other fields unchanged. -/
theorem fillRestartSignal_fields (c : Config) :
    (fillRestartSignal c).addresses = c.addresses
    ∧ (fillRestartSignal c).address = c.address
    ∧ (fillRestartSignal c).terminateTimeout = c.terminateTimeout
    ∧ (fillRestartSignal c).minFetchInterval = c.minFetchInterval := by
  unfold fillRestartSignal
  split <;> exact ⟨rfl, rfl, rfl, rfl⟩

/-- Filling the terminate-timeout default leaves the other fields unchanged. -/
theorem fillTerminateTimeout_fields (c : Config) :
    (fillTerminateTimeout c).addresses = c.addresses
    ∧ (fillTerminateTimeout c).restartSignal = c.restartSignal
    ∧ (fillTerminateTimeout c).minFetchInterval = c.minFetchInterval := by
  unfold fillTerminateTimeout
  split <;> exact ⟨rfl, rfl, rfl⟩

/-- Filling the fetch-interval default leaves the other fields unchanged. -/
theorem fillMinFetchInterval_fields (c : Config) :
    (fillMinFetchInterval c).addresses = c.addresses
    ∧ (fillMinFetchInterval c).restartSignal = c.restartSignal
    ∧ (fillMinFetchInterval c).terminateTimeout = c.terminateTimeout := by
  unfold fillMinFetchInterval
  split <;> exact ⟨rfl, rfl, rfl⟩

/-- After the restart-signal default the signal is always set. -/
theorem fillRestartSignal_isSome (c : Config) :
    (fillRestartSignal c).restartSignal.isSome = true := by
  unfold fillRestartSignal
  cases h : c.restartSignal <;> simp [h]

/-- An unset restart signal defaults to SIGUSR2. -/
theorem fillRestartSignal_none (c : Config) (h : c.restartSignal = none) :
    (fillRestartSignal c).restartSignal = some .usr2 := by
  unfold fillRestartSignal
  simp [h]

/-- A caller-set restart signal is kept. -/
theorem fillRestartSignal_some (c : Config) (h : c.restartSignal.isSome = true) :
    (fillRestartSignal c).restartSignal = c.restartSignal := by
  unfold fillRestartSignal
  cases hc : c.restartSignal
  · rw [hc] at h
    simp at h
  · simp [hc]

/-- A non-positive terminate timeout defaults to 30 seconds. -/
theorem fillTerminateTimeout_le (c : Config) (h : c.terminateTimeout ≤ 0) :
    (fillTerminateTimeout c).terminateTimeout = 30 * 1000000000 := by
  unfold fillTerminateTimeout
  simp [h]

/-- A positive terminate timeout is kept. -/
theorem fillTerminateTimeout_pos (c : Config) (h : 0 < c.terminateTimeout) :
    (fillTerminateTimeout c).terminateTimeout = c.terminateTimeout := by
  unfold fillTerminateTimeout
  rw [if_neg (by omega)]

/-- A non-positive fetch interval defaults to 1 second. -/
theorem fillMinFetchInterval_le (c : Config) (h : c.minFetchInterval ≤ 0) :
    (fillMinFetchInterval c).minFetchInterval = 1000000000 := by
  unfold fillMinFetchInterval
  simp [h]

/-- A positive fetch interval is kept. -/
theorem fillMinFetchInterval_pos (c : Config) (h : 0 < c.minFetchInterval) :
    (fillMinFetchInterval c).minFetchInterval = c.minFetchInterval := by
  unfold fillMinFetchInterval
  rw [if_neg (by omega)]

/-- If the caller set either address form, normalisation yields a
non-empty multi-address list. -/
theorem fillAddresses_nonempty (c : Config)
    (h : c.address ≠ "" ∨ c.addresses ≠ []) :
    (fillAddresses c).addresses ≠ [] := by
  unfold fillAddresses
  by_cases ha : c.address ≠ ""
  · simp [ha]
  · rw [if_neg ha]
    rcases h with h | h
    · exact absurd h ha
    · cases hc : c.addresses
      · exact absurd hc h
      · simp [hc]

/-- If neither address form was set, normalisation leaves the list empty. -/
theorem fillAddresses_empty (c : Config) (h1 : c.address = "")
    (h2 : c.addresses = []) :
    (fillAddresses c).addresses = [] := by
  unfold fillAddresses
  simp [h1, h2]

/-- C4 counterexample: a configuration with a program entry point but
neither address form set validates successfully and carries zero listen
addresses afterwards, refuting the claim that a configuration must
carry one or more listen addresses after validation. -/
theorem validate_zero_addresses :
    validatedAddresses cfgNoAddr = some [] := rfl

/-- C4 (amended): validation errors exactly when the program entry point
is missing or both address forms are set; on success the defaults are
filled (SIGUSR2, 30 seconds, 1 second, caller-set values kept) and the
multi-address list is non-empty whenever the caller set either address
form — but a configuration with neither form set validates successfully
with an empty address list. -/
theorem validate_characterization (c : Config) :
    (isErr (validate c) = true ↔
        c.program = none ∨ (c.address ≠ "" ∧ c.addresses ≠ []))
    ∧ ∀ c4, validate c = .ok c4 →
        c4.restartSignal.isSome = true
        ∧ (c.restartSignal = none → c4.restartSignal = some .usr2)
        ∧ (c.restartSignal.isSome = true → c4.restartSignal = c.restartSignal)
        ∧ (c.terminateTimeout ≤ 0 → c4.terminateTimeout = 30 * 1000000000)
        ∧ (0 < c.terminateTimeout → c4.terminateTimeout = c.terminateTimeout)
        ∧ (c.minFetchInterval ≤ 0 → c4.minFetchInterval = 1000000000)
        ∧ (0 < c.minFetchInterval → c4.minFetchInterval = c.minFetchInterval)
        ∧ ((c.address ≠ "" ∨ c.addresses ≠ []) → c4.addresses ≠ [])
        ∧ (c.address = "" → c.addresses = [] → c4.addresses = []) := by
  constructor
  · unfold validate
    split_ifs with h1 h2
    · exact iff_of_true rfl (Or.inl (Option.isNone_iff_eq_none.mp h1))
    · exact iff_of_true rfl (Or.inr h2)
    · refine iff_of_false (by simp [isErr]) ?_
      push_neg
      refine ⟨fun he => h1 (by simp [he]), fun ha => ?_⟩
      by_contra hb
      exact h2 ⟨ha, hb⟩
  · intro c4 h4
    unfold validate at h4
    split_ifs at h4
    injection h4 with h4
    subst h4
    have hads : (fillDefaults (fillAddresses c)).addresses =
        (fillAddresses c).addresses := by
      unfold fillDefaults
      rw [(fillMinFetchInterval_fields _).1, (fillTerminateTimeout_fields _).1,
        (fillRestartSignal_fields _).1]
    have hsig : (fillDefaults (fillAddresses c)).restartSignal =
        (fillRestartSignal (fillAddresses c)).restartSignal := by
      unfold fillDefaults
      rw [(fillMinFetchInterval_fields _).2.1, (fillTerminateTimeout_fields _).2.1]
    have htt : (fillDefaults (fillAddresses c)).terminateTimeout =
        (fillTerminateTimeout (fillRestartSignal (fillAddresses c))).terminateTimeout := by
      unfold fillDefaults
      rw [(fillMinFetchInterval_fields _).2.2]
    have hsigc : (fillAddresses c).restartSignal = c.restartSignal :=
      (fillAddresses_fields c).1
    have httc : (fillRestartSignal (fillAddresses c)).terminateTimeout =
        c.terminateTimeout := by
      rw [(fillRestartSignal_fields _).2.2.1, (fillAddresses_fields c).2.1]
    have hmfc : (fillTerminateTimeout (fillRestartSignal (fillAddresses c))).minFetchInterval =
        c.minFetchInterval := by
      rw [(fillTerminateTimeout_fields _).2.2, (fillRestartSignal_fields _).2.2.2,
        (fillAddresses_fields c).2.2]
    refine ⟨?_, ?_, ?_, ?_, ?_, ?_, ?_, ?_, ?_⟩
    · rw [hsig]
      exact fillRestartSignal_isSome _
    · intro h
      rw [hsig, fillRestartSignal_none _ (by rw [hsigc]; exact h)]
    · intro h
      rw [hsig, fillRestartSignal_some _ (by rw [hsigc]; exact h), hsigc]
    · intro h
      rw [htt, fillTerminateTimeout_le _ (by rw [httc]; exact h)]
    · intro h
      rw [htt, fillTerminateTimeout_pos _ (by rw [httc]; exact h), httc]
    · intro h
      unfold fillDefaults
      rw [fillMinFetchInterval_le _ (by rw [hmfc]; exact h)]
    · intro h
      unfold fillDefaults
      rw [fillMinFetchInterval_pos _ (by rw [hmfc]; exact h), hmfc]
    · intro h
      rw [hads]
      exact fillAddresses_nonempty c h
    · intro h1 h2
      rw [hads]
      exact fillAddresses_empty c h1 h2

theorem validate_characterization_w :
    (fillDefaults (fillAddresses cfgNoAddr)).restartSignal.isSome = true
    ∧ (fillDefaults (fillAddresses cfgNoAddr)).restartSignal = some .usr2
    ∧ (fillDefaults (fillAddresses cfgNoAddr)).terminateTimeout = 30 * 1000000000
    ∧ (fillDefaults (fillAddresses cfgNoAddr)).minFetchInterval = 1000000000
    ∧ (fillDefaults (fillAddresses cfgNoAddr)).addresses = [] :=
  have h := (validate_characterization cfgNoAddr).2
    (fillDefaults (fillAddresses cfgNoAddr)) rfl
  ⟨h.1, h.2.1 rfl, h.2.2.2.1 (by decide), h.2.2.2.2.2.1 (by decide),
   h.2.2.2.2.2.2.2.2 rfl rfl⟩

/-- C5 counterexample: with the sanity-check variable set to a
non-empty token but a required-mode configuration whose program entry
point is missing, the run path returns the validation error before the
sanity check ever runs: nothing is written to standard output and the
process exits non-zero, refuting the claim for every invocation. -/
theorem sanity_gate_skipped :
    runModel true cfgNoProgram envTok =
      (.fatalExit "simpleupdater.Config.Program required", "") := rfl

/-- C5 (amended): on a supported OS, for every configuration that
validates successfully, invoking the binary with the sanity-check
variable set to a non-empty token writes exactly that token to standard
output and exits with status zero, returning before any supervisor or
worker logic executes. -/
theorem sanity_gate (c : Config) (e : Env) (c4 : Config)
    (hv : validate c = .ok c4) (hb : e.binCheck ≠ "") :
    runModel true c e = (.exitZero, e.binCheck) := by
  simp [runModel, runErrModel, sanityCheckModel, hv, hb]

theorem sanity_gate_w :
    runModel true cfgNoAddr envTok = (.exitZero, envTok.binCheck) :=
  sanity_gate cfgNoAddr envTok (fillDefaults (fillAddresses cfgNoAddr)) rfl (by decide)

/-- A filter as long as its list keeps every element. -/
theorem filter_length_full {α : Type} (q : α → Bool) :
    ∀ l : List α, (l.filter q).length = l.length → ∀ a ∈ l, q a = true := by
  intro l
  induction l with
  | nil => exact fun _ a ha => absurd ha (List.not_mem_nil a)
  | cons x xs ih =>
    intro h a ha
    by_cases hq : q x = true
    · simp only [List.filter_cons, if_pos hq, List.length_cons] at h
      rcases List.mem_cons.mp ha with rfl | ha'
      · exact hq
      · exact ih (by omega) a ha'
    · simp only [List.filter_cons, if_neg hq, List.length_cons] at h
      have hle := List.length_filter_le q xs
      omega

/-- A filter keeping every element is as long as its list. -/
theorem filter_length_of_all {α : Type} (q : α → Bool) :
    ∀ l : List α, (∀ a ∈ l, q a = true) → (l.filter q).length = l.length := by
  intro l
  induction l with
  | nil => intro _; rfl
  | cons x xs ih =>
    intro h
    have hx : q x = true := h x (List.mem_cons_self x xs)
    simp only [List.filter_cons, if_pos hx, List.length_cons]
    rw [ih (fun a ha => h a (List.mem_cons_of_mem x ha))]

/-- A predicate and its negation partition a list's length. -/
theorem filter_partition_length {α : Type} (q : α → Bool) :
    ∀ l : List α,
      (l.filter q).length + (l.filter (fun a => ! q a)).length = l.length := by
  intro l
  induction l with
  | nil => rfl
  | cons x xs ih =>
    cases hx : q x <;> simp [List.filter_cons, hx] <;> omega

/-- A filter keeping no element is empty. -/
theorem filter_nil_of_none {α : Type} (q : α → Bool) :
    ∀ l : List α, (∀ a ∈ l, q a = false) → l.filter q = [] := by
  intro l
  induction l with
  | nil => intro _; rfl
  | cons x xs ih =>
    intro h
    have hx : q x = false := h x (List.mem_cons_self x xs)
    simp only [List.filter_cons, hx, Bool.false_eq_true, if_false]
    exact ih (fun a ha => h a (List.mem_cons_of_mem x ha))

/-- When the drain-wait goroutine wins the select inside `release`,
every connection was closed by its own handler before the deadline. -/
theorem all_closed_of_not_force (p : DrainPlan) (h : forceFires p = false) :
    ∀ i ∈ List.range p.n, closedBeforeDeadline p i = true := by
  unfold forceFires at h
  cases hdt : drainTick p with
  | none =>
    rw [hdt] at h
    simp at h
  | some t =>
    unfold drainTick at hdt
    have ht : t ∈ List.range p.timeout := List.mem_of_find?_eq_some hdt
    have hp := List.find?_some hdt
    have htlt : t < p.timeout := List.mem_range.mp ht
    have hz : wgAt p t = 0 := by simpa using hp
    intro i hi
    have hm : manuallyClosedBy p i t = true := by
      refine filter_length_full (fun j => manuallyClosedBy p j t)
        (List.range p.n) ?_ i hi
      have h1 : ((List.range p.n).filter (fun j => manuallyClosedBy p j t)).length ≤
          (List.range p.n).length := List.length_filter_le _ _
      unfold wgAt at hz
      rw [List.length_range] at h1 ⊢
      omega
    unfold manuallyClosedBy at hm
    unfold closedBeforeDeadline
    cases hct : p.closeTime i with
    | none =>
      rw [hct] at hm
      simp at hm
    | some ti =>
      rw [hct] at hm
      simp only [decide_eq_true_eq] at hm ⊢
      omega

/-- The connections force-closed by a drain run are exactly those still
open at the deadline (when the connections drained in time, both sides
are empty). -/
theorem forced_eq_filter (p : DrainPlan) :
    forcedConns p = (List.range p.n).filter (fun i => openAtDeadline p i) := by
  unfold forcedConns
  cases hff : forceFires p with
  | true => simp
  | false =>
    simp only [Bool.false_eq_true, if_false]
    symm
    apply filter_nil_of_none
    intro i hi
    have hc := all_closed_of_not_force p hff i hi
    unfold openAtDeadline
    simp [hc]

/-- The wait-group counter always reaches zero after the drain run:
each enrolled connection is decremented exactly once, either by its own
close or by its watcher on force-close. -/
theorem finalWg_zero (p : DrainPlan) : finalWg p = 0 := by
  unfold finalWg manualDecrements forcedConns
  cases hff : forceFires p with
  | false =>
    simp only [Bool.false_eq_true, if_false, List.length_nil]
    have hall : ∀ i ∈ List.range p.n, (p.closeTime i).isSome = true := by
      intro i hi
      have hc := all_closed_of_not_force p hff i hi
      unfold closedBeforeDeadline at hc
      cases hct : p.closeTime i
      · rw [hct] at hc
        simp at hc
      · simp
    have hlen := filter_length_of_all (fun i => (p.closeTime i).isSome)
      (List.range p.n) hall
    rw [hlen, List.length_range]
    omega
  | true =>
    simp only [if_true]
    have hpart := filter_partition_length (fun i => closedBeforeDeadline p i)
      (List.range p.n)
    have hopen : (List.range p.n).filter (fun i => openAtDeadline p i) =
        (List.range p.n).filter (fun i => ! closedBeforeDeadline p i) := by
      simp only [openAtDeadline]
    rw [hopen, List.length_range] at *
    omega

/-- C1: after `release(timeout)` on a listener with `n` open
connections, if every connection is closed before the timeout elapses
then no connection is force-closed; in general exactly the connections
still open at the deadline are force-closed (the force-close channel is
closed and each remaining connection's watcher closes it); in both
cases the wait-group drains to zero and the blocking `close()` returns
the error captured when the underlying socket was closed. -/
theorem release_drain_close (p : DrainPlan) :
    (((List.range p.n).all fun i => closedBeforeDeadline p i) = true →
        forcedConns p = [])
    ∧ forcedConns p = (List.range p.n).filter (fun i => openAtDeadline p i)
    ∧ drainBlockingClose p = some p.closeErr := by
  have hfe := forced_eq_filter p
  refine ⟨?_, hfe, ?_⟩
  · intro hall
    rw [hfe]
    apply filter_nil_of_none
    intro i hi
    have hc := List.all_eq_true.mp hall i hi
    unfold openAtDeadline
    simp [hc]
  · unfold drainBlockingClose
    rw [finalWg_zero p]
    simp

theorem release_drain_close_w :
    forcedConns drainPlanEx = [] ∧ drainBlockingClose drainPlanEx = some none :=
  ⟨(release_drain_close drainPlanEx).1 (by decide),
   (release_drain_close drainPlanEx).2.2⟩

/-- C3: for every accepted connection, after a first successful `Close`
(which decrements the listener's open count once and sends the
per-connection closed event once) a second `Close` is a no-op: the
wrapped connection's close returns an error, so the listener count is
not decremented again and the closed event is not resent. -/
theorem conn_close_second_noop (l : GListener) (c : GConn)
    (h : c.underlyingClosed = false) :
    (connClose l c).1.waitCount = l.waitCount - 1
    ∧ (connClose l c).2.1.closedEvents = c.closedEvents + 1
    ∧ connClose (connClose l c).1 (connClose l c).2.1 =
        ((connClose l c).1, (connClose l c).2.1,
         some "use of closed network connection") := by
  simp [connClose, h]

theorem conn_close_second_noop_w :
    (connClose tcpL freshConn).1.waitCount = tcpL.waitCount - 1
    ∧ (connClose tcpL freshConn).2.1.closedEvents = freshConn.closedEvents + 1
    ∧ connClose (connClose tcpL freshConn).1 (connClose tcpL freshConn).2.1 =
        ((connClose tcpL freshConn).1, (connClose tcpL freshConn).2.1,
         some "use of closed network connection") :=
  conn_close_second_noop tcpL freshConn rfl

/-- C6: the binary install `move` first attempts a rename and returns
success immediately when it succeeds; on rename failure it runs the
copy-and-remove fallback and then the filesystem sync before reporting
success, and an error is returned exactly when the fallback or the sync
fails. -/
theorem move_rename_fallback_sync (renameErr mvErr syncErr : Option String) :
    ((move renameErr mvErr syncErr).2 = none ↔
        renameErr = none ∨ (mvErr = none ∧ syncErr = none))
    ∧ (renameErr = none → move renameErr mvErr syncErr = ([.renameAttempt], none))
    ∧ (renameErr ≠ none → mvErr = none →
        move renameErr mvErr syncErr = ([.renameAttempt, .mvRun, .syncRun], syncErr))
    ∧ (renameErr ≠ none → mvErr ≠ none →
        move renameErr mvErr syncErr = ([.renameAttempt, .mvRun], mvErr)) := by
  rcases renameErr with _ | re <;> rcases mvErr with _ | me <;>
    rcases syncErr with _ | se <;> simp [move]

theorem move_rename_fallback_sync_w :
    move none none none = ([.renameAttempt], none)
    ∧ move (some "EXDEV") none none = ([.renameAttempt, .mvRun, .syncRun], none)
    ∧ move (some "EXDEV") (some "mv failed") none =
        ([.renameAttempt, .mvRun], some "mv failed") :=
  ⟨(move_rename_fallback_sync none none none).2.1 rfl,
   (move_rename_fallback_sync (some "EXDEV") none none).2.2.1 (by simp) rfl,
   (move_rename_fallback_sync (some "EXDEV") (some "mv failed") none).2.2.2
     (by simp) (by simp)⟩

/-- C7 counterexample: with `Required` unset, `Debug` unset and `NoWarn`
set, a `Run` error is not reported as a warning — the program is run in
the disabled fallback state with no warning logged, refuting the claim
that the error is always reported as a warning in the fallback case. -/
theorem run_error_warning_suppressed :
    runHandleErr false false true (some "spawn failed") =
      .fallbackRun false .disabled := rfl

/-- C7 (amended): when `Run` encounters an error, if `Required` is set
the process exits fatally (non-zero) with the error; otherwise the
caller-supplied program is run directly in-process with the disabled
state, and the warning is logged exactly when `Debug` is set or
warnings are not suppressed by `NoWarn`. -/
theorem run_error_branch (required debug noWarn : Bool) (msg : String) :
    (required = true → runHandleErr required debug noWarn (some msg) = .fatalExit msg)
    ∧ (required = false →
        runHandleErr required debug noWarn (some msg) =
          .fallbackRun (debug || !noWarn) .disabled) := by
  constructor <;> intro h <;> subst h <;> simp [runHandleErr]

theorem run_error_branch_w :
    runHandleErr true false false (some "x") = .fatalExit "x"
    ∧ runHandleErr false true false (some "x") =
        .fallbackRun (true || !false) .disabled :=
  ⟨(run_error_branch true false false "x").1 rfl,
   (run_error_branch false true false "x").2 rfl⟩

/-- C8: on a TCP-backed listener, `Accept` passes an underlying accept
error through unchanged with a nil connection and untouched state, and
on success returns a wrapped connection enrolled in drain accounting
(the open-connection count is incremented) with keep-alive enabled at a
fixed 3-minute period. -/
theorem accept_contract (l : GListener) (fd : Nat) (h : l.underlying = .tcp fd) :
    (∀ e, listenerAccept l (.error e) = .ok (l, .error e))
    ∧ listenerAccept l (.ok ()) =
        .ok ({ l with waitCount := l.waitCount + 1 },
             .ok { underlyingClosed := false, closedEvents := 0,
                   keepAlive := true, keepAlivePeriodNs := 180000000000 }) := by
  constructor
  · intro e
    simp [listenerAccept, assertTCPListener, h]
  · simp [listenerAccept, assertTCPListener, h]

theorem accept_contract_w :
    listenerAccept tcpL (.error "EMFILE") = .ok (tcpL, .error "EMFILE")
    ∧ listenerAccept tcpL (.ok ()) =
        .ok ({ tcpL with waitCount := tcpL.waitCount + 1 },
             .ok { underlyingClosed := false, closedEvents := 0,
                   keepAlive := true, keepAlivePeriodNs := 180000000000 }) :=
  ⟨(accept_contract tcpL 7 rfl).1 "EMFILE", (accept_contract tcpL 7 rfl).2⟩

/-- C9 counterexample: wrapping an in-memory fake (non-TCP) listener
and calling accept or the descriptor accessor panics — the type
assertion to the concrete TCP listener type fails — refuting the claim
that the graceful layer is decoupled from the concrete transport. -/
theorem accept_fake_listener_panics :
    listenerAccept fakeL (.ok ()) = .panicked ∧ listenerFile fakeL = .panicked := by
  constructor <;> rfl

/-- C9 (amended): the graceful layer is coupled to TCP — accept and the
descriptor accessor never panic on a TCP-backed listener, but both
panic on any other implementation of the listener interface, because
each type-asserts the wrapped listener to the concrete TCP type. -/
theorem graceful_layer_tcp_only (l : GListener) :
    ((∃ fd, l.underlying = .tcp fd) →
        (∀ raw, listenerAccept l raw ≠ .panicked) ∧ listenerFile l ≠ .panicked)
    ∧ (l.underlying = .fake →
        (∀ raw, listenerAccept l raw = .panicked) ∧ listenerFile l = .panicked) := by
  constructor
  · rintro ⟨fd, h⟩
    constructor
    · intro raw
      cases raw <;> simp [listenerAccept, assertTCPListener, h]
    · simp [listenerFile, assertTCPListener, h]
  · intro h
    constructor
    · intro raw
      simp [listenerAccept, assertTCPListener, h]
    · simp [listenerFile, assertTCPListener, h]

theorem graceful_layer_tcp_only_w :
    ((∀ raw, listenerAccept tcpL raw ≠ .panicked) ∧ listenerFile tcpL ≠ .panicked)
    ∧ ((∀ raw, listenerAccept fakeL raw = .panicked) ∧ listenerFile fakeL = .panicked) :=
  ⟨(graceful_layer_tcp_only tcpL).1 ⟨7, rfl⟩, (graceful_layer_tcp_only fakeL).2 rfl⟩

/-- C10: calling `Restart` while the current-process selector is still
unset is a guarded no-op — the selector is unchanged, nothing is
triggered, and the nil-interface method call that would panic is never
reached for any selector value. -/
theorem restart_nil_guard :
    restartModel none = (none, .noop)
    ∧ ∀ cp, (restartModel cp).2 ≠ .nilMethodPanic := by
  constructor
  · rfl
  · intro cp
    cases cp <;> simp [restartModel, triggerRestartCall]

end Simpleupdater
